import Mathlib

/-!
Shallow embedding of the Meraki → Snipe-IT sync (src/snipe_it.py, src/main.py).

HTTP traffic is modelled by an oracle `Nat → HttpOutcome` giving the outcome of
the k-th HTTP request the process issues; every request and every sleep is
recorded in an event trace so that retry/ordering properties are statable.
Python dicts are association lists with replace-or-append assignment; Python
exceptions are `Except Err`.
-/

deriving instance DecidableEq for Except

/-- Python JSON-ish values as they occur in device records and payloads. -/
inductive JVal
  | str (s : String)
  | num (n : Int)
  | null
deriving DecidableEq

/-- Python dict with string keys (association list; keys unique in practice). -/
abbrev Dict := List (String × JVal)

/-- Python `d.get(key)`: value of the first binding of `key`, if any. -/
def dget : Dict → String → Option JVal
  | [], _ => none
  | (k, v) :: rest, key => if k = key then some v else dget rest key

/-- Python `d.pop(key, None)`: the dict without the binding of `key`. -/
def dpop : Dict → String → Dict
  | [], _ => []
  | (k, v) :: rest, key => if k = key then dpop rest key else (k, v) :: dpop rest key

/-- Python `d[key] = v`: replace the existing binding or append a new one. -/
def dset : Dict → String → JVal → Dict
  | [], key, v => [(key, v)]
  | (k, w) :: rest, key, v =>
      if k = key then (k, v) :: rest else (k, w) :: dset rest key v

/-- Python `base.update(extra)` applied to a copy of `base`. -/
def dupdate (base extra : Dict) : Dict :=
  extra.foldl (fun acc p => dset acc p.1 p.2) base

/-- Python truthiness of an optional JSON value (`if x:` on `d.get(k)`):
`None`, the empty string and `0` are falsy. -/
def jtruthyO : Option JVal → Bool
  | none => false
  | some JVal.null => false
  | some (JVal.str s) => !s.isEmpty
  | some (JVal.num n) => n != 0

/-- Python `str(x)` as used in f-strings over these values. -/
def pyStr : JVal → String
  | JVal.str s => s
  | JVal.num n => toString n
  | JVal.null => "None"

/-- Row of a destination hardware-search response: `id` plus the two fields the
client inspects with `item.get(field_name)`. -/
structure HardwareRow where
  id : Nat
  tag : Option JVal
  serial : Option JVal
deriving DecidableEq

/-- Python `item.get(field_name)` on a hardware row, for the two fields used. -/
def rowField (r : HardwareRow) (field : String) : Option JVal :=
  if field = "asset_tag" then r.tag
  else if field = "serial" then r.serial
  else none

/-- Row of an entity (category/model) search or listing response. -/
structure EntityRow where
  id : Nat
  name : String
deriving DecidableEq

/-- Parsed body of a destination response, as far as the client looks at it. -/
inductive Body
  | hw (rows : List HardwareRow)
  | ent (rows : List EntityRow)
  | created (id : Nat)
  | empty
deriving DecidableEq

/-- Python `response.json().get("rows", [])` for hardware searches. -/
def rowsHw : Body → List HardwareRow
  | Body.hw rows => rows
  | _ => []

/-- Python `response.json().get("rows", [])` for entity searches and listings. -/
def rowsEnt : Body → List EntityRow
  | Body.ent rows => rows
  | _ => []

/-- Python `response.json()["payload"]["id"]` of an entity create; `none` when
the body does not have that shape (Python would raise `KeyError`). -/
def createdId : Body → Option Nat
  | Body.created i => some i
  | _ => none

/-- HTTP response as the client observes it: status code, optional
`Retry-After` header, parsed JSON body, raw text. -/
structure Response where
  status : Nat
  retryAfter : Option Nat
  body : Body
  text : String
deriving DecidableEq

/-- Outcome of one `requests.get/post/put` call: a response, or the library
raising (connection error and the like). -/
inductive HttpOutcome
  | resp (r : Response)
  | raised (msg : String)
deriving DecidableEq

/-- The environment: outcome of the k-th HTTP request the process issues. -/
abbrev Oracle := Nat → HttpOutcome

/-- Requests the client can issue, with the payload actually sent. -/
inductive Req
  | listCategories
  | listModels
  | searchHardware (value : JVal)
  | searchEntity (etype name : String)
  | createEntity (etype : String) (payload : Dict)
  | createHardware (body : Dict)
  | updateHardware (id : Nat) (body : Dict)
deriving DecidableEq

/-- Observable events of a run: a request, a rate-limit sleep of `secs`
seconds, the half-second pacing delay of the driver loop, or the Meraki
device fetch. -/
inductive Event
  | req (q : Req)
  | sleep (secs : Nat)
  | pace
  | fetchMeraki
deriving DecidableEq

/-- Network state threaded through the client: index of the next HTTP request
and the event trace so far. -/
structure Net where
  k : Nat
  evs : List Event
deriving DecidableEq

/-- Issue one HTTP request: consult the oracle, record the event. -/
def netRequest (oracle : Oracle) (st : Net) (q : Req) : HttpOutcome × Net :=
  (oracle st.k, ⟨st.k + 1, st.evs ++ [Event.req q]⟩)

/-- Record a `time.sleep(secs)` for a rate-limit retry. -/
def netSleep (st : Net) (secs : Nat) : Net :=
  ⟨st.k, st.evs ++ [Event.sleep secs]⟩

/-- Record the driver's `time.sleep(0.5)` pacing delay. -/
def netPace (st : Net) : Net :=
  ⟨st.k, st.evs ++ [Event.pace]⟩

/-- Python exceptions raised by the client and the mapper. -/
inductive Err
  | rateLimited (retries : Nat)
  | httpFail (status : Nat) (text : String)
  | createExhausted
  | pythonExc (msg : String)
  | valueError
  | modelIdMissing
deriving DecidableEq

/-- The module-level `_entity_cache`: keys `"{entity_type}:{name}"` to IDs. -/
abbrev Cache := List (String × Nat)

/-- Cache lookup (`cache_key in _entity_cache` and the read). -/
def cacheGet : Cache → String → Option Nat
  | [], _ => none
  | (k, v) :: rest, key => if k = key then some v else cacheGet rest key

/-- Cache assignment `_entity_cache[cache_key] = id`. -/
def cacheSet : Cache → String → Nat → Cache
  | [], key, v => [(key, v)]
  | (k, w) :: rest, key, v =>
      if k = key then (k, v) :: rest else (k, w) :: cacheSet rest key v

/-- Cache key `f"{entity_type}:{name}"`. -/
def entityKey (etype name : String) : String :=
  etype ++ ":" ++ name

/-! ### snipe_it.find_asset_by_tag_or_serial (src/snipe_it.py lines 79-130) -/

/-- Exact-match scan of a hardware search response: the first row whose
`field` equals the queried value verbatim (`item.get(field_name) == value`). -/
def findExactHw (field : String) (value : JVal) : List HardwareRow → Option Nat
  | [] => none
  | r :: rest =>
      if rowField r field = some value then some r.id else findExactHw field value rest

/-- Retry loop of one field search (`for attempt in range(max_retries)` at
line 103): 429 sleeps `Retry-After` (default 10) and retries unless on the
last attempt, which raises; 200 scans rows for an exact match and otherwise
breaks to the next field; any other status raises immediately. -/
def faLoop (oracle : Oracle) (field : String) (value : JVal) (maxR : Nat) :
    List Nat → Net → Except Err (Option Nat) × Net
  | [], st => (Except.ok none, st)
  | attempt :: rest, st =>
      match netRequest oracle st (Req.searchHardware value) with
      | (HttpOutcome.raised msg, st1) => (Except.error (Err.pythonExc msg), st1)
      | (HttpOutcome.resp r, st1) =>
          if r.status = 429 then
            let retry_after := r.retryAfter.getD 10
            if attempt < maxR - 1 then
              faLoop oracle field value maxR rest (netSleep st1 retry_after)
            else
              (Except.error (Err.rateLimited maxR), st1)
          else if r.status = 200 then
            match findExactHw field value (rowsHw r.body) with
            | some i => (Except.ok (some i), st1)
            | none => (Except.ok none, st1)
          else
            (Except.error (Err.httpFail r.status r.text), st1)

/-- Outer loop over the search criteria list (`for field_name, value in
search_fields`): stop at the first field that yields an accepted match. -/
def faFields (oracle : Oracle) (maxR : Nat) :
    List (String × JVal) → Net → Except Err (Option Nat) × Net
  | [], st => (Except.ok none, st)
  | (field, value) :: rest, st =>
      match faLoop oracle field value maxR (List.range maxR) st with
      | (Except.error e, st1) => (Except.error e, st1)
      | (Except.ok (some i), st1) => (Except.ok (some i), st1)
      | (Except.ok none, st1) => faFields oracle maxR rest st1

/-- Embedding of `find_asset_by_tag_or_serial`: the criteria list holds
`asset_tag` first, then `serial`, each only when truthy. -/
def find_asset_by_tag_or_serial (oracle : Oracle) (asset_tag serial : Option JVal)
    (maxR : Nat) (st : Net) : Except Err (Option Nat) × Net :=
  let search_fields :=
    (if jtruthyO asset_tag then [("asset_tag", asset_tag.getD JVal.null)] else []) ++
    (if jtruthyO serial then [("serial", serial.getD JVal.null)] else [])
  faFields oracle maxR search_fields st

/-! ### snipe_it.get_or_create_entity (src/snipe_it.py lines 133-224) -/

/-- Exact-match scan of an entity search response (`result.get("name") ==
name` at line 182): id of the first row whose name equals the query. -/
def findExactEnt (name : String) : List EntityRow → Option Nat
  | [] => none
  | r :: rest => if r.name = name then some r.id else findExactEnt name rest

/-- Search phase of `get_or_create_entity` (lines 161-190): `ok (some id)` is
an exact search hit, `ok none` falls through to creation (also when the
attempt list is empty, mirroring `range(0)`). -/
def gocSearchLoop (oracle : Oracle) (etype name : String) (maxR : Nat) :
    List Nat → Net → Except Err (Option Nat) × Net
  | [], st => (Except.ok none, st)
  | attempt :: rest, st =>
      match netRequest oracle st (Req.searchEntity etype name) with
      | (HttpOutcome.raised msg, st1) => (Except.error (Err.pythonExc msg), st1)
      | (HttpOutcome.resp r, st1) =>
          if r.status = 429 then
            let retry_after := r.retryAfter.getD 10
            if attempt < maxR - 1 then
              gocSearchLoop oracle etype name maxR rest (netSleep st1 retry_after)
            else
              (Except.error (Err.rateLimited maxR), st1)
          else if r.status = 200 then
            match findExactEnt name (rowsEnt r.body) with
            | some i => (Except.ok (some i), st1)
            | none => (Except.ok none, st1)
          else
            (Except.error (Err.httpFail r.status r.text), st1)

/-- Creation phase of `get_or_create_entity` (lines 198-224): success on
200/201 reads `payload.id`; falling off the loop raises (line 224). -/
def gocCreateLoop (oracle : Oracle) (etype : String) (payload : Dict) (maxR : Nat) :
    List Nat → Net → Except Err Nat × Net
  | [], st => (Except.error Err.createExhausted, st)
  | attempt :: rest, st =>
      match netRequest oracle st (Req.createEntity etype payload) with
      | (HttpOutcome.raised msg, st1) => (Except.error (Err.pythonExc msg), st1)
      | (HttpOutcome.resp r, st1) =>
          if r.status = 429 then
            let retry_after := r.retryAfter.getD 10
            if attempt < maxR - 1 then
              gocCreateLoop oracle etype payload maxR rest (netSleep st1 retry_after)
            else
              (Except.error (Err.rateLimited maxR), st1)
          else if r.status = 200 ∨ r.status = 201 then
            match createdId r.body with
            | some i => (Except.ok i, st1)
            | none => (Except.error (Err.pythonExc "KeyError"), st1)
          else
            (Except.error (Err.httpFail r.status r.text), st1)

/-- Embedding of `get_or_create_entity`: cache check first (return with no
network traffic on a hit), then search with exact-match filtering, then
creation; every successful resolution stores the ID under the cache key. -/
def get_or_create_entity (oracle : Oracle) (etype name : String) (additional : Dict)
    (maxR : Nat) (cache : Cache) (st : Net) : Except Err Nat × Cache × Net :=
  let key := entityKey etype name
  match cacheGet cache key with
  | some id => (Except.ok id, cache, st)
  | none =>
      match gocSearchLoop oracle etype name maxR (List.range maxR) st with
      | (Except.error e, st1) => (Except.error e, cache, st1)
      | (Except.ok (some id), st1) => (Except.ok id, cacheSet cache key id, st1)
      | (Except.ok none, st1) =>
          let payload := dupdate [("name", JVal.str name)] additional
          match gocCreateLoop oracle etype payload maxR (List.range maxR) st1 with
          | (Except.error e, st2) => (Except.error e, cache, st2)
          | (Except.ok id, st2) => (Except.ok id, cacheSet cache key id, st2)

/-! ### snipe_it._initialize_cache (src/snipe_it.py lines 34-76) -/

/-- Bulk-load one listing response into the cache
(`_entity_cache[f"{prefx}:{name}"] = id` per row). -/
def prewarmRows (prefx : String) (rows : List EntityRow) (cache : Cache) : Cache :=
  rows.foldl (fun c r => cacheSet c (entityKey prefx r.name) r.id) cache

/-- Embedding of `_initialize_cache`: no-op when already initialized;
otherwise list categories then models, caching rows of each 200 response; an
exception from either request is caught and the cache is marked initialized
regardless, keeping whatever was cached before the failure. -/
def _initialize_cache (oracle : Oracle) (cache : Cache) (initialized : Bool)
    (st : Net) : Cache × Bool × Net :=
  if initialized then (cache, initialized, st)
  else
    match netRequest oracle st Req.listCategories with
    | (HttpOutcome.raised _, st1) => (cache, true, st1)
    | (HttpOutcome.resp r1, st1) =>
        let cache1 := if r1.status = 200 then prewarmRows "categories" (rowsEnt r1.body) cache else cache
        match netRequest oracle st1 Req.listModels with
        | (HttpOutcome.raised _, st2) => (cache1, true, st2)
        | (HttpOutcome.resp r2, st2) =>
            let cache2 := if r2.status = 200 then prewarmRows "models" (rowsEnt r2.body) cache1 else cache1
            (cache2, true, st2)

/-! ### snipe_it.post_hardware_to_snipe_it (src/snipe_it.py lines 226-320) -/

/-- Values of the Python result dict returned by `post_hardware_to_snipe_it`. -/
inductive RV
  | bool (b : Bool)
  | nat (n : Nat)
  | str (s : String)
  | body (b : Body)
deriving DecidableEq

/-- The Python result dict of `post_hardware_to_snipe_it`. -/
abbrev PyRet := List (String × RV)

/-- Python `ret.get(key)` on a result dict. -/
def pyGet : PyRet → String → Option RV
  | [], _ => none
  | (k, v) :: rest, key => if k = key then some v else pyGet rest key

/-- The `{"success": True, "data": response.json()}` result. -/
def retSuccess (b : Body) : PyRet :=
  [("success", RV.bool true), ("data", RV.body b)]

/-- The rate-limit-exhausted result of the update/create loops. -/
def retRateLimited : PyRet :=
  [("success", RV.bool false), ("status_code", RV.nat 429),
   ("error", RV.str "Rate limit exceeded after max retries")]

/-- The non-success result carrying the status code and response text. -/
def retFailed (status : Nat) (text : String) : PyRet :=
  [("success", RV.bool false), ("status_code", RV.nat status),
   ("error", RV.str text)]

/-- Update loop of `post_hardware_to_snipe_it` (lines 259-284): `ok none`
models falling off the loop (Python returns `None`); non-2xx statuses return
an error dict instead of raising. -/
def phUpdateLoop (oracle : Oracle) (assetId : Nat) (body : Dict) (maxR : Nat) :
    List Nat → Net → Except Err (Option PyRet) × Net
  | [], st => (Except.ok none, st)
  | attempt :: rest, st =>
      match netRequest oracle st (Req.updateHardware assetId body) with
      | (HttpOutcome.raised msg, st1) => (Except.error (Err.pythonExc msg), st1)
      | (HttpOutcome.resp r, st1) =>
          if r.status = 429 then
            let retry_after := r.retryAfter.getD 10
            if attempt < maxR - 1 then
              phUpdateLoop oracle assetId body maxR rest (netSleep st1 retry_after)
            else
              (Except.ok (some retRateLimited), st1)
          else if r.status = 200 ∨ r.status = 201 then
            (Except.ok (some (retSuccess r.body)), st1)
          else
            (Except.ok (some (retFailed r.status r.text)), st1)

/-- Create loop of `post_hardware_to_snipe_it` (lines 291-320), same result
shapes as the update loop. -/
def phCreateLoop (oracle : Oracle) (body : Dict) (maxR : Nat) :
    List Nat → Net → Except Err (Option PyRet) × Net
  | [], st => (Except.ok none, st)
  | attempt :: rest, st =>
      match netRequest oracle st (Req.createHardware body) with
      | (HttpOutcome.raised msg, st1) => (Except.error (Err.pythonExc msg), st1)
      | (HttpOutcome.resp r, st1) =>
          if r.status = 429 then
            let retry_after := r.retryAfter.getD 10
            if attempt < maxR - 1 then
              phCreateLoop oracle body maxR rest (netSleep st1 retry_after)
            else
              (Except.ok (some retRateLimited), st1)
          else if r.status = 200 ∨ r.status = 201 then
            (Except.ok (some (retSuccess r.body)), st1)
          else
            (Except.ok (some (retFailed r.status r.text)), st1)

/-- Python truthiness of the optional integer returned by the existence check
(`if asset_id:`): `None` and `0` are falsy. -/
def jtruthyN (o : Option Nat) : Bool :=
  o.getD 0 != 0

/-- Embedding of `post_hardware_to_snipe_it`. `hardware_data.copy()` makes the
mutations below act on a separate value; the third component of the result is
the caller's dict object as it stands after the call. Exceptions from the
existence check propagate (the Python function does not catch them). -/
def post_hardware_to_snipe_it (oracle : Oracle) (hardware_data : Dict)
    (maxR : Nat) (st : Net) : Except Err (Option PyRet) × Net × Dict :=
  match find_asset_by_tag_or_serial oracle (dget hardware_data "asset_tag")
      (dget hardware_data "serial") maxR st with
  | (Except.error e, st1) => (Except.error e, st1, hardware_data)
  | (Except.ok asset_id, st1) =>
      let data_to_send := hardware_data
      if jtruthyN asset_id then
        let data_to_send := dpop (dpop data_to_send "serial") "status_id"
        match phUpdateLoop oracle (asset_id.getD 0) data_to_send maxR (List.range maxR) st1 with
        | (res, st2) => (res, st2, hardware_data)
      else
        match phCreateLoop oracle data_to_send maxR (List.range maxR) st1 with
        | (res, st2) => (res, st2, hardware_data)

/-! ### main.py: mapper, statistics and sync driver -/

/-- SyncStatistics counters (src/main.py lines 15-30), without the constant
Meraki call count. -/
structure Stats where
  total_devices : Nat
  successful : Nat
  failed : Nat
  updated : Nat
  created : Nat
  snipe_it_searches : Nat
  snipe_it_creates : Nat
  snipe_it_updates : Nat
deriving DecidableEq

/-- Fresh statistics at run start. -/
def stats0 : Stats := ⟨0, 0, 0, 0, 0, 0, 0, 0⟩

/-- Embedding of `map_meraki_to_snipeit` (src/main.py lines 58-107): validate
`model`/`productType`, resolve category then model through the taxonomy
resolver, then build the Snipe-IT payload (asset_tag duplicates serial,
status_id is the constant 2, notes embed MAC and network id). -/
def map_meraki_to_snipeit (oracle : Oracle) (device : Dict) (maxR : Nat)
    (cache : Cache) (st : Net) : Except Err Dict × Cache × Net :=
  let model_name := dget device "model"
  let product_type := dget device "productType"
  if !jtruthyO model_name || !jtruthyO product_type then
    (Except.error Err.valueError, cache, st)
  else
    match get_or_create_entity oracle "categories" (pyStr (product_type.getD JVal.null))
        [("category_type", JVal.str "asset")] maxR cache st with
    | (Except.error e, c1, n1) => (Except.error e, c1, n1)
    | (Except.ok category, c1, n1) =>
        match get_or_create_entity oracle "models" (pyStr (model_name.getD JVal.null))
            [("category_id", JVal.num category)] maxR c1 n1 with
        | (Except.error e, c2, n2) => (Except.error e, c2, n2)
        | (Except.ok model_id, c2, n2) =>
            if model_id = 0 then (Except.error Err.modelIdMissing, c2, n2)
            else
              (Except.ok
                [("name", (dget device "name").getD JVal.null),
                 ("serial", (dget device "serial").getD JVal.null),
                 ("asset_tag", (dget device "serial").getD JVal.null),
                 ("model_id", JVal.num model_id),
                 ("category", JVal.num category),
                 ("status_id", JVal.num 2),
                 ("purchase_date", (dget device "purchase_date").getD JVal.null),
                 ("purchase_cost", (dget device "purchase_cost").getD JVal.null),
                 ("notes", JVal.str ("Imported from Meraki. MAC: " ++
                    pyStr ((dget device "mac").getD JVal.null) ++ ", Network ID: " ++
                    pyStr ((dget device "networkId").getD JVal.null)))],
               c2, n2)

/-- Driver's `response.get("action", "unknown")` (src/main.py line 154). -/
def classifyAction (ret : PyRet) : String :=
  match pyGet ret "action" with
  | some (RV.str s) => s
  | _ => "unknown"

/-- Statistics update for one device outcome (src/main.py lines 152-175):
success increments `successful` and the search count and classifies the
action; everything else — error dict, propagated exception, or a `None`
result — increments `failed`. -/
def applyOutcome (stats : Stats) (res : Except Err (Option PyRet)) : Stats :=
  match res with
  | Except.error _ => {stats with failed := stats.failed + 1}
  | Except.ok none => {stats with failed := stats.failed + 1}
  | Except.ok (some ret) =>
      match pyGet ret "success" with
      | some (RV.bool true) =>
          let s1 := {stats with successful := stats.successful + 1,
                                snipe_it_searches := stats.snipe_it_searches + 1}
          let action := classifyAction ret
          if action = "update" then
            {s1 with updated := s1.updated + 1,
                     snipe_it_updates := s1.snipe_it_updates + 1}
          else if action = "create" then
            {s1 with created := s1.created + 1,
                     snipe_it_creates := s1.snipe_it_creates + 1}
          else s1
      | some (RV.bool false) => {stats with failed := stats.failed + 1}
      | _ => {stats with failed := stats.failed + 1}

/-- Driver state: the module-level entity cache, the network trace, and the
run statistics. -/
structure DrvState where
  cache : Cache
  net : Net
  stats : Stats
deriving DecidableEq

/-- One iteration of the device loop (src/main.py lines 138-175): pacing
delay, map, reconcile, classify — with every exception caught and turned into
a `failed` increment so the loop can continue. -/
def processOne (oracle : Oracle) (device : Dict) (st : DrvState) : DrvState :=
  let net0 := netPace st.net
  match map_meraki_to_snipeit oracle device 3 st.cache net0 with
  | (Except.error _, c1, n1) =>
      ⟨c1, n1, {st.stats with failed := st.stats.failed + 1}⟩
  | (Except.ok snipeit_data, c1, n1) =>
      match post_hardware_to_snipe_it oracle snipeit_data 3 n1 with
      | (res, n2, _) => ⟨c1, n2, applyOutcome st.stats res⟩

/-- The device loop itself: process each device in order. -/
def runLoop (oracle : Oracle) : List Dict → DrvState → DrvState
  | [], st => st
  | device :: rest, st => runLoop oracle rest (processOne oracle device st)

/-- Phases of one sync run, in the order the driver enters them. -/
inductive Phase
  | cacheWarming
  | fetching
  | processing (i : Nat)
  | summary
deriving DecidableEq

/-- Result of one full sync run. -/
structure RunResult where
  stats : Stats
  cache : Cache
  net : Net
  phases : List Phase
deriving DecidableEq

/-- Phase trace of a run over `n` devices as `runSync` produces it. -/
def phaseList (n : Nat) : List Phase :=
  Phase.cacheWarming :: Phase.fetching ::
    ((List.range n).map fun i => Phase.processing (i + 1)) ++ [Phase.summary]

/-- Embedding of the `__main__` sync workflow (src/main.py lines 110-184) for
runs whose device fetch succeeds and returns `devices`: initialize the entity
cache, fetch devices, then either warn-and-summarize (no devices) or process
each device and summarize. -/
def runSync (oracle : Oracle) (devices : List Dict) : RunResult :=
  let (cache1, _, net1) := _initialize_cache oracle [] false ⟨0, []⟩
  let net2 : Net := ⟨net1.k, net1.evs ++ [Event.fetchMeraki]⟩
  if devices.isEmpty then
    ⟨stats0, cache1, net2, phaseList devices.length⟩
  else
    let stats1 := {stats0 with total_devices := devices.length}
    let final := runLoop oracle devices ⟨cache1, net2, stats1⟩
    ⟨final.stats, final.cache, final.net, phaseList devices.length⟩

/-- Concrete oracle built from a finite response list (requests past the end
raise, like a dropped connection). -/
def oracleOf (l : List HttpOutcome) : Oracle :=
  fun k => l.getD k (HttpOutcome.raised "no response")

/-- Fresh network state. -/
def net0 : Net := ⟨0, []⟩

/-! ### Helper lemmas -/

theorem range_three : List.range 3 = [0, 1, 2] := by decide

theorem dget_dpop_self (d : Dict) (key : String) : dget (dpop d key) key = none := by
  induction d with
  | nil => rfl
  | cons p rest ih =>
      obtain ⟨k, v⟩ := p
      by_cases h : k = key <;> simp [dpop, dget, h, ih]

theorem dget_dpop_ne (d : Dict) (key key' : String) (h : key ≠ key') :
    dget (dpop d key) key' = dget d key' := by
  induction d with
  | nil => rfl
  | cons p rest ih =>
      obtain ⟨k, v⟩ := p
      by_cases hk : k = key
      · subst hk
        simp [dpop, dget, h, ih]
      · by_cases hk' : k = key' <;> simp [dpop, dget, hk, hk', Ne.symm h, ih]

theorem cacheGet_cacheSet_self (c : Cache) (key : String) (v : Nat) :
    cacheGet (cacheSet c key v) key = some v := by
  induction c with
  | nil => simp [cacheSet, cacheGet]
  | cons p rest ih =>
      obtain ⟨k, w⟩ := p
      by_cases h : k = key <;> simp [cacheSet, cacheGet, h, ih]

theorem findExactEnt_of_no_match (name : String) (rows : List EntityRow)
    (h : ∀ r ∈ rows, r.name ≠ name) : findExactEnt name rows = none := by
  induction rows with
  | nil => rfl
  | cons r rest ih =>
      have hr : r.name ≠ name := h r (List.mem_cons_self r rest)
      simp only [findExactEnt, if_neg hr]
      exact ih fun x hx => h x (List.mem_cons_of_mem r hx)

theorem findExactEnt_some (name : String) (rows : List EntityRow) (i : Nat)
    (h : findExactEnt name rows = some i) :
    ∃ r ∈ rows, r.name = name ∧ r.id = i := by
  induction rows with
  | nil => simp [findExactEnt] at h
  | cons r rest ih =>
      by_cases hr : r.name = name
      · refine ⟨r, List.mem_cons_self r rest, hr, ?_⟩
        simp only [findExactEnt, if_pos hr, Option.some.injEq] at h
        exact h
      · simp only [findExactEnt, if_neg hr] at h
        obtain ⟨x, hx, hxn, hxi⟩ := ih h
        exact ⟨x, List.mem_cons_of_mem r hx, hxn, hxi⟩

theorem findExactHw_of_no_match (field : String) (value : JVal)
    (rows : List HardwareRow) (h : ∀ r ∈ rows, rowField r field ≠ some value) :
    findExactHw field value rows = none := by
  induction rows with
  | nil => rfl
  | cons r rest ih =>
      have hr : rowField r field ≠ some value := h r (List.mem_cons_self r rest)
      simp only [findExactHw, if_neg hr]
      exact ih fun x hx => h x (List.mem_cons_of_mem r hx)

theorem get_or_create_hit (oracle : Oracle) (etype name : String) (additional : Dict)
    (maxR : Nat) (cache : Cache) (st : Net) (id : Nat)
    (h : cacheGet cache (entityKey etype name) = some id) :
    get_or_create_entity oracle etype name additional maxR cache st =
      (Except.ok id, cache, st) := by
  unfold get_or_create_entity
  simp [h]

theorem goc_success_caches (oracle : Oracle) (etype name : String) (additional : Dict)
    (maxR : Nat) (cache : Cache) (st : Net) (id : Nat) (cache' : Cache) (st' : Net)
    (h : get_or_create_entity oracle etype name additional maxR cache st =
      (Except.ok id, cache', st')) :
    cacheGet cache' (entityKey etype name) = some id := by
  unfold get_or_create_entity at h
  rcases hc : cacheGet cache (entityKey etype name) with _ | cid
  · simp only [hc] at h
    rcases hs : gocSearchLoop oracle etype name maxR (List.range maxR) st with ⟨res, st1⟩
    rcases res with e | o
    · simp [hs] at h
    · rcases o with _ | i
      · rcases hcr : gocCreateLoop oracle etype
            (dupdate [("name", JVal.str name)] additional) maxR (List.range maxR) st1
          with ⟨cres, st2⟩
        rcases cres with e | cid2
        · simp [hs, hcr] at h
        · simp only [hs, hcr, Prod.mk.injEq, Except.ok.injEq] at h
          obtain ⟨h1, h2, h3⟩ := h
          subst h1; subst h2
          exact cacheGet_cacheSet_self ..
      · simp only [hs, Prod.mk.injEq, Except.ok.injEq] at h
        obtain ⟨h1, h2, h3⟩ := h
        subst h1; subst h2
        exact cacheGet_cacheSet_self ..
  · simp only [hc, Prod.mk.injEq, Except.ok.injEq] at h
    obtain ⟨h1, h2, h3⟩ := h
    subst h1; subst h2
    exact hc

/-- C4. Taxonomy resolution is idempotent: a cache hit returns immediately
with zero network traffic (state and trace unchanged); every successful call
leaves the resolved ID in the cache under its `(type, name)` key; hence once
a call has returned an ID, any later call for the same `(type, name)` — with
any oracle, any retry cap and from any point of the run — returns the very
same ID with no network requests and no cache change, so at most one create
is ever issued for the pair. -/
theorem c4_taxonomy_idempotent :
    (∀ oracle etype name additional maxR cache st id,
        cacheGet cache (entityKey etype name) = some id →
        get_or_create_entity oracle etype name additional maxR cache st =
          (Except.ok id, cache, st)) ∧
    (∀ oracle etype name additional maxR cache st id cache' st',
        get_or_create_entity oracle etype name additional maxR cache st =
          (Except.ok id, cache', st') →
        cacheGet cache' (entityKey etype name) = some id) ∧
    (∀ oracle oracle' etype name additional additional' maxR maxR' cache st id cache' st' st2,
        get_or_create_entity oracle etype name additional maxR cache st =
          (Except.ok id, cache', st') →
        get_or_create_entity oracle' etype name additional' maxR' cache' st2 =
          (Except.ok id, cache', st2)) := by
  refine ⟨fun oracle etype name additional maxR cache st id h =>
      get_or_create_hit oracle etype name additional maxR cache st id h,
    fun oracle etype name additional maxR cache st id cache' st' h =>
      goc_success_caches oracle etype name additional maxR cache st id cache' st' h,
    fun oracle oracle' etype name additional additional' maxR maxR' cache st id cache' st' st2 h =>
      get_or_create_hit oracle' etype name additional' maxR' cache' st2 id
        (goc_success_caches oracle etype name additional maxR cache st id cache' st' h)⟩

/-- Witness for C4 at concrete inputs: a cache hit returns with no traffic,
and after a first call that resolves "categories:Switch" to 7 by search, a
second call returns 7 from the cache untouched. -/
theorem c4_taxonomy_idempotent_witness :
    cacheGet [("categories:Switch", 7)] (entityKey "categories" "Switch") = some 7 ∧
    get_or_create_entity (oracleOf []) "categories" "Switch" [] 3
      [("categories:Switch", 7)] net0 =
      (Except.ok 7, [("categories:Switch", 7)], net0) ∧
    get_or_create_entity
      (oracleOf [HttpOutcome.resp ⟨200, none, Body.ent [⟨7, "Switch"⟩], ""⟩])
      "categories" "Switch" [] 3 [] net0 =
      (Except.ok 7, [("categories:Switch", 7)],
        ⟨1, [Event.req (Req.searchEntity "categories" "Switch")]⟩) ∧
    get_or_create_entity (oracleOf []) "categories" "Switch"
      [("category_type", JVal.str "asset")] 5 [("categories:Switch", 7)] net0 =
      (Except.ok 7, [("categories:Switch", 7)], net0) :=
  ⟨by decide,
   c4_taxonomy_idempotent.1 (oracleOf []) "categories" "Switch" [] 3
     [("categories:Switch", 7)] net0 7 (by decide),
   by decide,
   c4_taxonomy_idempotent.2.2
     (oracleOf [HttpOutcome.resp ⟨200, none, Body.ent [⟨7, "Switch"⟩], ""⟩])
     (oracleOf []) "categories" "Switch" [] [("category_type", JVal.str "asset")] 3 5
     [] net0 7 [("categories:Switch", 7)]
     ⟨1, [Event.req (Req.searchEntity "categories" "Switch")]⟩ net0 (by decide)⟩

/-- C3. Exact-match discipline of `get_or_create_entity`: on a cache miss,
when the search returns 200 with rows none of whose names equals the query
verbatim, no row is accepted — the call proceeds to issue a create and
returns (and caches) the ID of the newly created entity; and a search scan
yields an ID only for a row whose name equals the query verbatim. -/
theorem c3_entity_exact_match (oracle : Oracle) (etype name : String)
    (additional : Dict) (cache : Cache) (st : Net) (rows : List EntityRow)
    (ra ra' : Option Nat) (t t' : String) (cid : Nat)
    (hmiss : cacheGet cache (entityKey etype name) = none)
    (hrows : ∀ r ∈ rows, r.name ≠ name)
    (hsearch : oracle st.k = HttpOutcome.resp ⟨200, ra, Body.ent rows, t⟩)
    (hcreate : oracle (st.k + 1) = HttpOutcome.resp ⟨201, ra', Body.created cid, t'⟩) :
    get_or_create_entity oracle etype name additional 3 cache st =
      (Except.ok cid, cacheSet cache (entityKey etype name) cid,
        ⟨st.k + 2, st.evs ++ [Event.req (Req.searchEntity etype name),
          Event.req (Req.createEntity etype (dupdate [("name", JVal.str name)] additional))]⟩) ∧
    (∀ rows' i, findExactEnt name rows' = some i →
      ∃ r ∈ rows', r.name = name ∧ r.id = i) := by
  constructor
  · unfold get_or_create_entity
    rw [range_three]
    simp [hmiss, gocSearchLoop, gocCreateLoop, netRequest, hsearch, hcreate,
      rowsEnt, createdId, findExactEnt_of_no_match name rows hrows]
  · exact fun rows' i h => findExactEnt_some name rows' i h

/-- Witness for C3: a search that returns only the non-exact match "Switches"
for the query "Switch" is rejected and a create (returning ID 9) follows. -/
theorem c3_entity_exact_match_witness :
    cacheGet [] (entityKey "categories" "Switch") = none ∧
    (∀ r ∈ [(⟨8, "Switches"⟩ : EntityRow)], r.name ≠ "Switch") ∧
    oracleOf [HttpOutcome.resp ⟨200, none, Body.ent [⟨8, "Switches"⟩], ""⟩,
      HttpOutcome.resp ⟨201, none, Body.created 9, ""⟩] net0.k =
      HttpOutcome.resp ⟨200, none, Body.ent [⟨8, "Switches"⟩], ""⟩ ∧
    oracleOf [HttpOutcome.resp ⟨200, none, Body.ent [⟨8, "Switches"⟩], ""⟩,
      HttpOutcome.resp ⟨201, none, Body.created 9, ""⟩] (net0.k + 1) =
      HttpOutcome.resp ⟨201, none, Body.created 9, ""⟩ ∧
    get_or_create_entity
      (oracleOf [HttpOutcome.resp ⟨200, none, Body.ent [⟨8, "Switches"⟩], ""⟩,
        HttpOutcome.resp ⟨201, none, Body.created 9, ""⟩])
      "categories" "Switch" [] 3 [] net0 =
      (Except.ok 9, cacheSet [] (entityKey "categories" "Switch") 9,
        ⟨net0.k + 2, net0.evs ++ [Event.req (Req.searchEntity "categories" "Switch"),
          Event.req (Req.createEntity "categories"
            (dupdate [("name", JVal.str "Switch")] []))]⟩) :=
  ⟨by decide, by decide, by decide, by decide,
   (c3_entity_exact_match
     (oracleOf [HttpOutcome.resp ⟨200, none, Body.ent [⟨8, "Switches"⟩], ""⟩,
       HttpOutcome.resp ⟨201, none, Body.created 9, ""⟩])
     "categories" "Switch" [] [] net0 [⟨8, "Switches"⟩] none none "" "" 9
     (by decide) (by decide) (by decide) (by decide)).1⟩

theorem findExactHw_some (field : String) (value : JVal) (rows : List HardwareRow)
    (i : Nat) (h : findExactHw field value rows = some i) :
    ∃ r ∈ rows, rowField r field = some value ∧ r.id = i := by
  induction rows with
  | nil => simp [findExactHw] at h
  | cons r rest ih =>
      by_cases hr : rowField r field = some value
      · refine ⟨r, List.mem_cons_self r rest, hr, ?_⟩
        simp only [findExactHw, if_pos hr, Option.some.injEq] at h
        exact h
      · simp only [findExactHw, if_neg hr] at h
        obtain ⟨x, hx, hxv, hxi⟩ := ih h
        exact ⟨x, List.mem_cons_of_mem r hx, hxv, hxi⟩

/-- C5. The existence check searches by `asset_tag` first and falls back to
`serial` only when the tag search accepted nothing; a result is accepted only
when its returned field equals the queried value verbatim, and when both
searches return only non-exact rows the asset is reported absent. When the
tag search finds an exact match, the serial search never happens. -/
theorem c5_find_asset_exact_first (oracle : Oracle) (st : Net) (tagv serialv : JVal)
    (rows1 rows2 : List HardwareRow) (ra1 ra2 : Option Nat) (t1 t2 : String)
    (htag : jtruthyO (some tagv) = true) (hser : jtruthyO (some serialv) = true)
    (h1 : oracle st.k = HttpOutcome.resp ⟨200, ra1, Body.hw rows1, t1⟩)
    (h2 : oracle (st.k + 1) = HttpOutcome.resp ⟨200, ra2, Body.hw rows2, t2⟩) :
    ((∀ r ∈ rows1, rowField r "asset_tag" ≠ some tagv) →
      (∀ r ∈ rows2, rowField r "serial" ≠ some serialv) →
      find_asset_by_tag_or_serial oracle (some tagv) (some serialv) 3 st =
        (Except.ok none,
          ⟨st.k + 2, st.evs ++ [Event.req (Req.searchHardware tagv),
            Event.req (Req.searchHardware serialv)]⟩)) ∧
    (∀ i, findExactHw "asset_tag" tagv rows1 = some i →
      find_asset_by_tag_or_serial oracle (some tagv) (some serialv) 3 st =
        (Except.ok (some i),
          ⟨st.k + 1, st.evs ++ [Event.req (Req.searchHardware tagv)]⟩)) ∧
    (∀ field value rows' i, findExactHw field value rows' = some i →
      ∃ r ∈ rows', rowField r field = some value ∧ r.id = i) := by
  refine ⟨fun hA hB => ?_, fun i hfound => ?_, fun field value rows' i h =>
    findExactHw_some field value rows' i h⟩
  · unfold find_asset_by_tag_or_serial
    simp [htag, hser, faFields, faLoop, netRequest, h1, h2, rowsHw, range_three,
      findExactHw_of_no_match "asset_tag" tagv rows1 hA,
      findExactHw_of_no_match "serial" serialv rows2 hB]
  · unfold find_asset_by_tag_or_serial
    simp [htag, hser, faFields, faLoop, netRequest, h1, rowsHw, range_three, hfound]

/-- Witness for C5: tag "Q1" and serial "S1" with a tag search returning only
a row tagged "X1" and a serial search returning only a row with serial "Y1"
yields "absent" after searching tag first, then serial. -/
theorem c5_find_asset_exact_first_witness :
    jtruthyO (some (JVal.str "Q1")) = true ∧
    jtruthyO (some (JVal.str "S1")) = true ∧
    (∀ r ∈ [(⟨3, some (JVal.str "X1"), none⟩ : HardwareRow)],
      rowField r "asset_tag" ≠ some (JVal.str "Q1")) ∧
    (∀ r ∈ [(⟨4, none, some (JVal.str "Y1")⟩ : HardwareRow)],
      rowField r "serial" ≠ some (JVal.str "S1")) ∧
    find_asset_by_tag_or_serial
      (oracleOf [HttpOutcome.resp ⟨200, none, Body.hw [⟨3, some (JVal.str "X1"), none⟩], ""⟩,
        HttpOutcome.resp ⟨200, none, Body.hw [⟨4, none, some (JVal.str "Y1")⟩], ""⟩])
      (some (JVal.str "Q1")) (some (JVal.str "S1")) 3 net0 =
      (Except.ok none,
        ⟨net0.k + 2, net0.evs ++ [Event.req (Req.searchHardware (JVal.str "Q1")),
          Event.req (Req.searchHardware (JVal.str "S1"))]⟩) :=
  ⟨by decide, by decide, by decide, by decide,
   (c5_find_asset_exact_first
     (oracleOf [HttpOutcome.resp ⟨200, none, Body.hw [⟨3, some (JVal.str "X1"), none⟩], ""⟩,
       HttpOutcome.resp ⟨200, none, Body.hw [⟨4, none, some (JVal.str "Y1")⟩], ""⟩])
     net0 (JVal.str "Q1") (JVal.str "S1")
     [⟨3, some (JVal.str "X1"), none⟩] [⟨4, none, some (JVal.str "Y1")⟩]
     none none "" "" (by decide) (by decide) (by decide) (by decide)).1
     (by decide) (by decide)⟩

/-- C6. Frame of the reconcile payload: when an existing asset is found the
update body is the payload minus `serial` and `status_id` with every other
binding unchanged, and when none is found the create sends the full payload
(the very dict, `status_id` included). -/
theorem c6_update_strip_create_full (oracle : Oracle) (hd : Dict) (st : Net) :
    (∀ rows (ra ra' : Option Nat) t t' (i : Nat) b,
      jtruthyO (dget hd "asset_tag") = true →
      oracle st.k = HttpOutcome.resp ⟨200, ra, Body.hw rows, t⟩ →
      findExactHw "asset_tag" ((dget hd "asset_tag").getD JVal.null) rows = some i →
      i ≠ 0 →
      oracle (st.k + 1) = HttpOutcome.resp ⟨200, ra', b, t'⟩ →
      post_hardware_to_snipe_it oracle hd 3 st =
        (Except.ok (some (retSuccess b)),
          ⟨st.k + 2, st.evs ++
            [Event.req (Req.searchHardware ((dget hd "asset_tag").getD JVal.null)),
             Event.req (Req.updateHardware i (dpop (dpop hd "serial") "status_id"))]⟩,
          hd)) ∧
    (dget (dpop (dpop hd "serial") "status_id") "serial" = none ∧
     dget (dpop (dpop hd "serial") "status_id") "status_id" = none ∧
     ∀ key, key ≠ "serial" → key ≠ "status_id" →
       dget (dpop (dpop hd "serial") "status_id") key = dget hd key) ∧
    (∀ tagv serialv rows1 rows2 (ra1 ra2 ra3 : Option Nat) t1 t2 t3 b,
      dget hd "asset_tag" = some tagv → jtruthyO (some tagv) = true →
      dget hd "serial" = some serialv → jtruthyO (some serialv) = true →
      oracle st.k = HttpOutcome.resp ⟨200, ra1, Body.hw rows1, t1⟩ →
      (∀ r ∈ rows1, rowField r "asset_tag" ≠ some tagv) →
      oracle (st.k + 1) = HttpOutcome.resp ⟨200, ra2, Body.hw rows2, t2⟩ →
      (∀ r ∈ rows2, rowField r "serial" ≠ some serialv) →
      oracle (st.k + 2) = HttpOutcome.resp ⟨201, ra3, b, t3⟩ →
      post_hardware_to_snipe_it oracle hd 3 st =
        (Except.ok (some (retSuccess b)),
          ⟨st.k + 3, st.evs ++
            [Event.req (Req.searchHardware tagv),
             Event.req (Req.searchHardware serialv),
             Event.req (Req.createHardware hd)]⟩,
          hd)) := by
  refine ⟨fun rows ra ra' t t' i b htag h1 hfound hi h2 => ?_,
    ⟨?_, ?_, fun key h1 h2 => ?_⟩,
    fun tagv serialv rows1 rows2 ra1 ra2 ra3 t1 t2 t3 b
      htv htag hsv hser h1 hA h2 hB h3 => ?_⟩
  · unfold post_hardware_to_snipe_it find_asset_by_tag_or_serial
    simp [htag, faFields, faLoop, netRequest, h1, h2, rowsHw, range_three, hfound,
      jtruthyN, hi, phUpdateLoop, retSuccess]
  · exact (dget_dpop_ne (dpop hd "serial") "status_id" "serial" (by decide)).trans
      (dget_dpop_self hd "serial")
  · exact dget_dpop_self (dpop hd "serial") "status_id"
  · exact (dget_dpop_ne (dpop hd "serial") "status_id" key (Ne.symm h2)).trans
      (dget_dpop_ne hd "serial" key (Ne.symm h1))
  · unfold post_hardware_to_snipe_it find_asset_by_tag_or_serial
    simp [htv, hsv, htag, hser, faFields, faLoop, netRequest, h1, h2, h3, rowsHw,
      range_three, findExactHw_of_no_match "asset_tag" tagv rows1 hA,
      findExactHw_of_no_match "serial" serialv rows2 hB,
      jtruthyN, phCreateLoop, retSuccess]

/-- Witness for C6: updating the existing asset 42 sends a body without
`serial` and `status_id` while the caller's dict keeps both. -/
theorem c6_update_strip_create_full_witness :
    jtruthyO (dget [("name", JVal.str "AP1"), ("serial", JVal.str "S"),
      ("asset_tag", JVal.str "S"), ("status_id", JVal.num 2)] "asset_tag") = true ∧
    findExactHw "asset_tag" (JVal.str "S")
      [⟨42, some (JVal.str "S"), some (JVal.str "S")⟩] = some 42 ∧
    post_hardware_to_snipe_it
      (oracleOf [HttpOutcome.resp ⟨200, none,
          Body.hw [⟨42, some (JVal.str "S"), some (JVal.str "S")⟩], ""⟩,
        HttpOutcome.resp ⟨200, none, Body.empty, ""⟩])
      [("name", JVal.str "AP1"), ("serial", JVal.str "S"),
       ("asset_tag", JVal.str "S"), ("status_id", JVal.num 2)] 3 net0 =
      (Except.ok (some (retSuccess Body.empty)),
        ⟨2, [Event.req (Req.searchHardware (JVal.str "S")),
             Event.req (Req.updateHardware 42
               [("name", JVal.str "AP1"), ("asset_tag", JVal.str "S")])]⟩,
        [("name", JVal.str "AP1"), ("serial", JVal.str "S"),
         ("asset_tag", JVal.str "S"), ("status_id", JVal.num 2)]) :=
  ⟨by decide, by decide,
   (c6_update_strip_create_full
     (oracleOf [HttpOutcome.resp ⟨200, none,
         Body.hw [⟨42, some (JVal.str "S"), some (JVal.str "S")⟩], ""⟩,
       HttpOutcome.resp ⟨200, none, Body.empty, ""⟩])
     [("name", JVal.str "AP1"), ("serial", JVal.str "S"),
      ("asset_tag", JVal.str "S"), ("status_id", JVal.num 2)] net0).1
     [⟨42, some (JVal.str "S"), some (JVal.str "S")⟩] none none "" "" 42 Body.empty
     (by decide) (by decide) (by decide) (by decide) (by decide)⟩

/-- C10. Reconcile never mutates the caller's mapping: whatever the oracle
and retry cap, the caller's dict after `post_hardware_to_snipe_it` is the
dict passed in — in particular its `serial` and `status_id` bindings survive
— even in the update branch, where the body actually sent is the stripped
copy. -/
theorem c10_caller_dict_preserved (oracle : Oracle) (hd : Dict) (st : Net) :
    (∀ maxR, (post_hardware_to_snipe_it oracle hd maxR st).2.2 = hd) ∧
    (∀ maxR, dget (post_hardware_to_snipe_it oracle hd maxR st).2.2 "serial" =
        dget hd "serial" ∧
      dget (post_hardware_to_snipe_it oracle hd maxR st).2.2 "status_id" =
        dget hd "status_id") ∧
    (∀ rows (ra ra' : Option Nat) t t' (i : Nat) b v w,
      jtruthyO (dget hd "asset_tag") = true →
      oracle st.k = HttpOutcome.resp ⟨200, ra, Body.hw rows, t⟩ →
      findExactHw "asset_tag" ((dget hd "asset_tag").getD JVal.null) rows = some i →
      i ≠ 0 →
      oracle (st.k + 1) = HttpOutcome.resp ⟨200, ra', b, t'⟩ →
      dget hd "serial" = some v → dget hd "status_id" = some w →
      (post_hardware_to_snipe_it oracle hd 3 st).2.1.evs = st.evs ++
          [Event.req (Req.searchHardware ((dget hd "asset_tag").getD JVal.null)),
           Event.req (Req.updateHardware i (dpop (dpop hd "serial") "status_id"))] ∧
      dget (dpop (dpop hd "serial") "status_id") "serial" = none ∧
      dget (dpop (dpop hd "serial") "status_id") "status_id" = none ∧
      dget (post_hardware_to_snipe_it oracle hd 3 st).2.2 "serial" = some v ∧
      dget (post_hardware_to_snipe_it oracle hd 3 st).2.2 "status_id" = some w) := by
  have hthird : ∀ maxR, (post_hardware_to_snipe_it oracle hd maxR st).2.2 = hd := by
    intro maxR
    unfold post_hardware_to_snipe_it
    rcases find_asset_by_tag_or_serial oracle (dget hd "asset_tag")
        (dget hd "serial") maxR st with ⟨res, st1⟩
    rcases res with e | aid
    · rfl
    · by_cases h : jtruthyN aid = true
      · simp only [h]
        rcases phUpdateLoop oracle (aid.getD 0) (dpop (dpop hd "serial") "status_id")
            maxR (List.range maxR) st1 with ⟨r2, s2⟩
        simp
      · simp only [Bool.not_eq_true] at h
        simp only [h]
        rcases phCreateLoop oracle hd maxR (List.range maxR) st1 with ⟨r2, s2⟩
        simp
  refine ⟨hthird, fun maxR => ⟨by rw [hthird maxR], by rw [hthird maxR]⟩,
    fun rows ra ra' t t' i b v w htag h1 hfound hi h2 hv hw => ?_⟩
  refine ⟨?_, (dget_dpop_ne (dpop hd "serial") "status_id" "serial" (by decide)).trans
      (dget_dpop_self hd "serial"),
    dget_dpop_self (dpop hd "serial") "status_id",
    by rw [hthird 3]; exact hv, by rw [hthird 3]; exact hw⟩
  unfold post_hardware_to_snipe_it find_asset_by_tag_or_serial
  simp [htag, faFields, faLoop, netRequest, h1, h2, rowsHw, range_three, hfound,
    jtruthyN, hi, phUpdateLoop, retSuccess]

/-- Witness for C10: after the update-branch run of C6's witness scenario the
caller's dict still binds `serial` and `status_id` although neither was sent. -/
theorem c10_caller_dict_preserved_witness :
    jtruthyO (dget [("name", JVal.str "AP1"), ("serial", JVal.str "S"),
      ("asset_tag", JVal.str "S"), ("status_id", JVal.num 2)] "asset_tag") = true ∧
    dget [("name", JVal.str "AP1"), ("serial", JVal.str "S"),
      ("asset_tag", JVal.str "S"), ("status_id", JVal.num 2)] "serial" =
      some (JVal.str "S") ∧
    ((post_hardware_to_snipe_it
        (oracleOf [HttpOutcome.resp ⟨200, none,
            Body.hw [⟨42, some (JVal.str "S"), some (JVal.str "S")⟩], ""⟩,
          HttpOutcome.resp ⟨200, none, Body.empty, ""⟩])
        [("name", JVal.str "AP1"), ("serial", JVal.str "S"),
         ("asset_tag", JVal.str "S"), ("status_id", JVal.num 2)] 3 net0).2.1.evs =
        [Event.req (Req.searchHardware (JVal.str "S")),
         Event.req (Req.updateHardware 42
           [("name", JVal.str "AP1"), ("asset_tag", JVal.str "S")])] ∧
      dget [("name", JVal.str "AP1"), ("asset_tag", JVal.str "S")] "serial" = none ∧
      dget [("name", JVal.str "AP1"), ("asset_tag", JVal.str "S")] "status_id" = none ∧
      dget (post_hardware_to_snipe_it
        (oracleOf [HttpOutcome.resp ⟨200, none,
            Body.hw [⟨42, some (JVal.str "S"), some (JVal.str "S")⟩], ""⟩,
          HttpOutcome.resp ⟨200, none, Body.empty, ""⟩])
        [("name", JVal.str "AP1"), ("serial", JVal.str "S"),
         ("asset_tag", JVal.str "S"), ("status_id", JVal.num 2)] 3 net0).2.2 "serial" =
        some (JVal.str "S") ∧
      dget (post_hardware_to_snipe_it
        (oracleOf [HttpOutcome.resp ⟨200, none,
            Body.hw [⟨42, some (JVal.str "S"), some (JVal.str "S")⟩], ""⟩,
          HttpOutcome.resp ⟨200, none, Body.empty, ""⟩])
        [("name", JVal.str "AP1"), ("serial", JVal.str "S"),
         ("asset_tag", JVal.str "S"), ("status_id", JVal.num 2)] 3 net0).2.2 "status_id" =
        some (JVal.num 2)) :=
  ⟨by decide, by decide,
   (c10_caller_dict_preserved
     (oracleOf [HttpOutcome.resp ⟨200, none,
         Body.hw [⟨42, some (JVal.str "S"), some (JVal.str "S")⟩], ""⟩,
       HttpOutcome.resp ⟨200, none, Body.empty, ""⟩])
     [("name", JVal.str "AP1"), ("serial", JVal.str "S"),
      ("asset_tag", JVal.str "S"), ("status_id", JVal.num 2)] net0).2.2
     [⟨42, some (JVal.str "S"), some (JVal.str "S")⟩] none none "" "" 42 Body.empty
     (JVal.str "S") (JVal.num 2)
     (by decide) (by decide) (by decide) (by decide) (by decide) (by decide) (by decide)⟩

/-- C7. Retry policy on destination calls, at the default cap of 3 attempts.
Search loop: three straight 429s make exactly three requests, sleeping the
server-provided `Retry-After` (10 when absent) after each non-final one, then
surface a terminal rate-limit error; a 429 followed by a 200 retries and the
operation succeeds; any other non-success status fails immediately after a
single request, carrying the status code and response body. The create loop
of the taxonomy resolver and the update loop of the reconciler behave the
same way, the update loop surfacing exhaustion as an error result to its
caller. -/
theorem c7_retry_policy :
    (∀ oracle st field v (ra1 ra2 ra3 : Option Nat) b1 b2 b3 t1 t2 t3,
      oracle st.k = HttpOutcome.resp ⟨429, ra1, b1, t1⟩ →
      oracle (st.k + 1) = HttpOutcome.resp ⟨429, ra2, b2, t2⟩ →
      oracle (st.k + 2) = HttpOutcome.resp ⟨429, ra3, b3, t3⟩ →
      faLoop oracle field v 3 (List.range 3) st =
        (Except.error (Err.rateLimited 3),
          ⟨st.k + 3, st.evs ++
            [Event.req (Req.searchHardware v), Event.sleep (ra1.getD 10),
             Event.req (Req.searchHardware v), Event.sleep (ra2.getD 10),
             Event.req (Req.searchHardware v)]⟩)) ∧
    (∀ oracle st field v (ra1 ra2 : Option Nat) b1 b2 t1 t2,
      oracle st.k = HttpOutcome.resp ⟨429, ra1, b1, t1⟩ →
      oracle (st.k + 1) = HttpOutcome.resp ⟨200, ra2, b2, t2⟩ →
      faLoop oracle field v 3 (List.range 3) st =
        (Except.ok (findExactHw field v (rowsHw b2)),
          ⟨st.k + 2, st.evs ++
            [Event.req (Req.searchHardware v), Event.sleep (ra1.getD 10),
             Event.req (Req.searchHardware v)]⟩)) ∧
    (∀ oracle st field v s (ra : Option Nat) b t,
      oracle st.k = HttpOutcome.resp ⟨s, ra, b, t⟩ → s ≠ 429 → s ≠ 200 →
      faLoop oracle field v 3 (List.range 3) st =
        (Except.error (Err.httpFail s t),
          ⟨st.k + 1, st.evs ++ [Event.req (Req.searchHardware v)]⟩)) ∧
    (∀ oracle st etype payload (ra1 ra2 ra3 : Option Nat) b1 b2 b3 t1 t2 t3,
      oracle st.k = HttpOutcome.resp ⟨429, ra1, b1, t1⟩ →
      oracle (st.k + 1) = HttpOutcome.resp ⟨429, ra2, b2, t2⟩ →
      oracle (st.k + 2) = HttpOutcome.resp ⟨429, ra3, b3, t3⟩ →
      gocCreateLoop oracle etype payload 3 (List.range 3) st =
        (Except.error (Err.rateLimited 3),
          ⟨st.k + 3, st.evs ++
            [Event.req (Req.createEntity etype payload), Event.sleep (ra1.getD 10),
             Event.req (Req.createEntity etype payload), Event.sleep (ra2.getD 10),
             Event.req (Req.createEntity etype payload)]⟩)) ∧
    (∀ oracle st etype payload s (ra : Option Nat) b t,
      oracle st.k = HttpOutcome.resp ⟨s, ra, b, t⟩ → s ≠ 429 → s ≠ 200 → s ≠ 201 →
      gocCreateLoop oracle etype payload 3 (List.range 3) st =
        (Except.error (Err.httpFail s t),
          ⟨st.k + 1, st.evs ++ [Event.req (Req.createEntity etype payload)]⟩)) ∧
    (∀ oracle st i body (ra1 ra2 ra3 : Option Nat) b1 b2 b3 t1 t2 t3,
      oracle st.k = HttpOutcome.resp ⟨429, ra1, b1, t1⟩ →
      oracle (st.k + 1) = HttpOutcome.resp ⟨429, ra2, b2, t2⟩ →
      oracle (st.k + 2) = HttpOutcome.resp ⟨429, ra3, b3, t3⟩ →
      phUpdateLoop oracle i body 3 (List.range 3) st =
        (Except.ok (some retRateLimited),
          ⟨st.k + 3, st.evs ++
            [Event.req (Req.updateHardware i body), Event.sleep (ra1.getD 10),
             Event.req (Req.updateHardware i body), Event.sleep (ra2.getD 10),
             Event.req (Req.updateHardware i body)]⟩)) := by
  refine ⟨fun oracle st field v ra1 ra2 ra3 b1 b2 b3 t1 t2 t3 h1 h2 h3 => ?_,
    fun oracle st field v ra1 ra2 b1 b2 t1 t2 h1 h2 => ?_,
    fun oracle st field v s ra b t h1 hs1 hs2 => ?_,
    fun oracle st etype payload ra1 ra2 ra3 b1 b2 b3 t1 t2 t3 h1 h2 h3 => ?_,
    fun oracle st etype payload s ra b t h1 hs1 hs2 hs3 => ?_,
    fun oracle st i body ra1 ra2 ra3 b1 b2 b3 t1 t2 t3 h1 h2 h3 => ?_⟩
  · rw [range_three]
    simp [faLoop, netRequest, netSleep, h1, h2, h3]
  · rw [range_three]
    rcases hf : findExactHw field v (rowsHw b2) with _ | i <;>
      simp [faLoop, netRequest, netSleep, h1, h2, hf]
  · rw [range_three]
    simp [faLoop, netRequest, h1, hs1, hs2]
  · rw [range_three]
    simp [gocCreateLoop, netRequest, netSleep, h1, h2, h3]
  · rw [range_three]
    simp [gocCreateLoop, netRequest, h1, hs1, hs2, hs3]
  · rw [range_three]
    simp [phUpdateLoop, netRequest, netSleep, h1, h2, h3]

/-- Witness for C7: three 429s (Retry-After 5, then absent, then 9) make
exactly three search requests with sleeps of 5 and 10 and end in the terminal
rate-limit error. -/
theorem c7_retry_policy_witness :
    oracleOf [HttpOutcome.resp ⟨429, some 5, Body.empty, ""⟩,
      HttpOutcome.resp ⟨429, none, Body.empty, ""⟩,
      HttpOutcome.resp ⟨429, some 9, Body.empty, ""⟩] net0.k =
      HttpOutcome.resp ⟨429, some 5, Body.empty, ""⟩ ∧
    oracleOf [HttpOutcome.resp ⟨429, some 5, Body.empty, ""⟩,
      HttpOutcome.resp ⟨429, none, Body.empty, ""⟩,
      HttpOutcome.resp ⟨429, some 9, Body.empty, ""⟩] (net0.k + 1) =
      HttpOutcome.resp ⟨429, none, Body.empty, ""⟩ ∧
    oracleOf [HttpOutcome.resp ⟨429, some 5, Body.empty, ""⟩,
      HttpOutcome.resp ⟨429, none, Body.empty, ""⟩,
      HttpOutcome.resp ⟨429, some 9, Body.empty, ""⟩] (net0.k + 2) =
      HttpOutcome.resp ⟨429, some 9, Body.empty, ""⟩ ∧
    faLoop (oracleOf [HttpOutcome.resp ⟨429, some 5, Body.empty, ""⟩,
      HttpOutcome.resp ⟨429, none, Body.empty, ""⟩,
      HttpOutcome.resp ⟨429, some 9, Body.empty, ""⟩])
      "asset_tag" (JVal.str "Q") 3 (List.range 3) net0 =
      (Except.error (Err.rateLimited 3),
        ⟨3, [Event.req (Req.searchHardware (JVal.str "Q")), Event.sleep 5,
             Event.req (Req.searchHardware (JVal.str "Q")), Event.sleep 10,
             Event.req (Req.searchHardware (JVal.str "Q"))]⟩) :=
  ⟨by decide, by decide, by decide,
   c7_retry_policy.1 (oracleOf [HttpOutcome.resp ⟨429, some 5, Body.empty, ""⟩,
       HttpOutcome.resp ⟨429, none, Body.empty, ""⟩,
       HttpOutcome.resp ⟨429, some 9, Body.empty, ""⟩])
     net0 "asset_tag" (JVal.str "Q") (some 5) none (some 9)
     Body.empty Body.empty Body.empty "" "" ""
     (by decide) (by decide) (by decide)⟩

theorem applyOutcome_counts (s : Stats) (res : Except Err (Option PyRet)) :
    (applyOutcome s res).successful + (applyOutcome s res).failed =
      s.successful + s.failed + 1 := by
  unfold applyOutcome
  rcases res with e | o
  · simp only []
    omega
  · rcases o with _ | ret
    · simp only []
      omega
    · rcases h : pyGet ret "success" with _ | rv
      · simp only [h]
        omega
      · rcases rv with b | n | s' | b'
        · rcases b with _ | _
          · simp only [h]
            omega
          · simp only [h]
            split
            · simp only []
              omega
            · split
              · simp only []
                omega
              · simp only []
                omega
        · simp only [h]
          omega
        · simp only [h]
          omega
        · simp only [h]
          omega

theorem processOne_counts (oracle : Oracle) (device : Dict) (st : DrvState) :
    (processOne oracle device st).stats.successful +
        (processOne oracle device st).stats.failed =
      st.stats.successful + st.stats.failed + 1 := by
  unfold processOne
  rcases h : map_meraki_to_snipeit oracle device 3 st.cache (netPace st.net)
    with ⟨mres, c1, n1⟩
  rcases mres with e | payload
  · simp only [h]
    omega
  · simp only [h]
    exact applyOutcome_counts st.stats (post_hardware_to_snipe_it oracle payload 3 n1).1

theorem runLoop_counts (oracle : Oracle) (devices : List Dict) (st : DrvState) :
    (runLoop oracle devices st).stats.successful +
        (runLoop oracle devices st).stats.failed =
      st.stats.successful + st.stats.failed + devices.length := by
  induction devices generalizing st with
  | nil => simp [runLoop]
  | cons d rest ih =>
      simp only [runLoop, List.length_cons]
      rw [ih (processOne oracle d st)]
      rw [processOne_counts oracle d st]
      omega

/-- C8. Batch isolation of the driver loop: (1) every device contributes
exactly one to `successful + failed`, so a single device's failure (of any
kind) is counted and never aborts the batch — over N devices the two
counters grow by exactly N; (2) a device record lacking a truthy `model` or
`productType` fails validation before any network call for it: the only new
event is the pacing delay, the cache is untouched and `failed` increments —
so the device never reaches asset creation; (3) the loop always continues
with the remaining devices after each one. -/
theorem c8_batch_isolation :
    (∀ oracle devices st,
      (runLoop oracle devices st).stats.successful +
          (runLoop oracle devices st).stats.failed =
        st.stats.successful + st.stats.failed + devices.length) ∧
    (∀ oracle device st,
      jtruthyO (dget device "model") = false ∨
        jtruthyO (dget device "productType") = false →
      processOne oracle device st =
        ⟨st.cache, netPace st.net, {st.stats with failed := st.stats.failed + 1}⟩) ∧
    (∀ oracle device rest st,
      runLoop oracle (device :: rest) st =
        runLoop oracle rest (processOne oracle device st)) := by
  refine ⟨runLoop_counts, fun oracle device st h => ?_, fun _ _ _ _ => rfl⟩
  unfold processOne map_meraki_to_snipeit
  rcases h with h | h <;> simp [h]

/-- Witness for C8: a device record with no `model` fails validation, is
counted as failed, and adds only the pacing event. -/
theorem c8_batch_isolation_witness :
    (jtruthyO (dget [("productType", JVal.str "wireless")] "model") = false ∨
      jtruthyO (dget [("productType", JVal.str "wireless")] "productType") = false) ∧
    processOne (oracleOf []) [("productType", JVal.str "wireless")]
      ⟨[], net0, stats0⟩ =
      ⟨[], netPace net0, {stats0 with failed := stats0.failed + 1}⟩ :=
  ⟨Or.inl (by decide),
   c8_batch_isolation.2.1 (oracleOf []) [("productType", JVal.str "wireless")]
     ⟨[], net0, stats0⟩ (Or.inl (by decide))⟩

theorem runSync_phases (oracle : Oracle) (devices : List Dict) :
    (runSync oracle devices).phases = phaseList devices.length := by
  unfold runSync
  rcases _initialize_cache oracle [] false ⟨0, []⟩ with ⟨c1, b1, n1⟩
  by_cases h : devices.isEmpty <;> simp [h]

/-- C2 counterexample. The claim (and the spec's state machine) put FETCHING
before CACHE_WARMING, but on a concrete one-device run the driver warms the
entity cache first and fetches devices second: the phase trace starts with
CACHE_WARMING, which is a different phase than FETCHING. -/
theorem c2_counterexample :
    (runSync (oracleOf []) [[]]).phases =
      [Phase.cacheWarming, Phase.fetching, Phase.processing 1, Phase.summary] ∧
    Phase.cacheWarming ≠ Phase.fetching := by
  constructor
  · rw [runSync_phases]
    decide
  · decide

/-- C2 amended. For every run the driver passes through CACHE_WARMING first,
then FETCHING, then per-device PROCESSING in order, then SUMMARY; the
CACHE_WARMING phase occurs exactly once — it never recurs after the head of
the trace. -/
theorem c2_phase_order_amended (oracle : Oracle) (devices : List Dict) :
    (runSync oracle devices).phases =
      Phase.cacheWarming :: Phase.fetching ::
        (((List.range devices.length).map fun i => Phase.processing (i + 1)) ++
          [Phase.summary]) ∧
    Phase.cacheWarming ∉
      (Phase.fetching ::
        (((List.range devices.length).map fun i => Phase.processing (i + 1)) ++
          [Phase.summary])) := by
  constructor
  · rw [runSync_phases]
    rfl
  · simp

/-- C9 counterexample. A prewarm whose category listing succeeds (caching
"Switch" with ID 7) and whose model listing then raises is a failed prewarm,
yet it leaves the cache non-empty — against the claim that a failed prewarm
leaves the cache empty. -/
theorem c9_counterexample :
    _initialize_cache
      (oracleOf [HttpOutcome.resp ⟨200, none, Body.ent [⟨7, "Switch"⟩], ""⟩])
      [] false net0 =
      ([("categories:Switch", 7)], true,
        ⟨2, [Event.req Req.listCategories, Event.req Req.listModels]⟩) ∧
    ([("categories:Switch", 7)] : Cache) ≠ [] := by
  constructor
  · decide
  · decide

/-- C9 amended. A prewarm failure is non-fatal: an exception on the first
listing leaves the cache exactly as it was (empty at startup) and still
marks it initialized; an exception on the model listing keeps the categories
already bulk-loaded and marks it initialized; and in every case the sync
proceeds — the run's phase trace still runs CACHE_WARMING through SUMMARY,
with taxonomy resolution falling back to per-entity lookups. -/
theorem c9_prewarm_failure_amended :
    (∀ oracle cache st msg, oracle st.k = HttpOutcome.raised msg →
      _initialize_cache oracle cache false st =
        (cache, true, ⟨st.k + 1, st.evs ++ [Event.req Req.listCategories]⟩)) ∧
    (∀ oracle cache st rows (ra : Option Nat) t msg,
      oracle st.k = HttpOutcome.resp ⟨200, ra, Body.ent rows, t⟩ →
      oracle (st.k + 1) = HttpOutcome.raised msg →
      _initialize_cache oracle cache false st =
        (prewarmRows "categories" rows cache, true,
          ⟨st.k + 2, st.evs ++ [Event.req Req.listCategories,
            Event.req Req.listModels]⟩)) ∧
    (∀ oracle devices,
      (runSync oracle devices).phases = phaseList devices.length) := by
  refine ⟨fun oracle cache st msg h => ?_,
    fun oracle cache st rows ra t msg h1 h2 => ?_, runSync_phases⟩
  · unfold _initialize_cache
    simp [netRequest, h]
  · unfold _initialize_cache
    simp [netRequest, h1, h2, rowsEnt]

/-- Witness for C9 amended: a connection error on the very first listing
leaves the cache empty and initialized after one request. -/
theorem c9_prewarm_failure_amended_witness :
    oracleOf [] net0.k = HttpOutcome.raised "no response" ∧
    _initialize_cache (oracleOf []) [] false net0 =
      ([], true, ⟨1, [Event.req Req.listCategories]⟩) :=
  ⟨by decide,
   c9_prewarm_failure_amended.1 (oracleOf []) [] net0 "no response" (by decide)⟩

/-- C1. Reconcile is idempotent in its branch behaviour — against an empty
destination the first call with the payload takes the create branch (its
trace ends in a hardware create) and a second call, once the asset exists,
takes the update branch against that same asset's ID (no second create) —
but the result dict of both calls carries no "action" key: the driver's
`response.get("action", "unknown")` therefore classifies both as "unknown",
and `applyOutcome` leaves the created and updated counters at zero even for
successful calls. The claim's result-reporting half fails on the code. -/
theorem c1_action_key_missing :
    (post_hardware_to_snipe_it
      (oracleOf [HttpOutcome.resp ⟨200, none, Body.hw [], ""⟩,
        HttpOutcome.resp ⟨200, none, Body.hw [], ""⟩,
        HttpOutcome.resp ⟨201, none, Body.created 42, ""⟩])
      [("name", JVal.str "AP1"), ("serial", JVal.str "Q2XX-1111"),
       ("asset_tag", JVal.str "Q2XX-1111"), ("model_id", JVal.num 5),
       ("status_id", JVal.num 2)] 3 net0).1 =
      Except.ok (some (retSuccess (Body.created 42))) ∧
    (post_hardware_to_snipe_it
      (oracleOf [HttpOutcome.resp ⟨200, none, Body.hw [], ""⟩,
        HttpOutcome.resp ⟨200, none, Body.hw [], ""⟩,
        HttpOutcome.resp ⟨201, none, Body.created 42, ""⟩])
      [("name", JVal.str "AP1"), ("serial", JVal.str "Q2XX-1111"),
       ("asset_tag", JVal.str "Q2XX-1111"), ("model_id", JVal.num 5),
       ("status_id", JVal.num 2)] 3 net0).2.1.evs =
      [Event.req (Req.searchHardware (JVal.str "Q2XX-1111")),
       Event.req (Req.searchHardware (JVal.str "Q2XX-1111")),
       Event.req (Req.createHardware
         [("name", JVal.str "AP1"), ("serial", JVal.str "Q2XX-1111"),
          ("asset_tag", JVal.str "Q2XX-1111"), ("model_id", JVal.num 5),
          ("status_id", JVal.num 2)])] ∧
    (post_hardware_to_snipe_it
      (oracleOf [HttpOutcome.resp ⟨200, none,
          Body.hw [⟨42, some (JVal.str "Q2XX-1111"), some (JVal.str "Q2XX-1111")⟩], ""⟩,
        HttpOutcome.resp ⟨200, none, Body.empty, ""⟩])
      [("name", JVal.str "AP1"), ("serial", JVal.str "Q2XX-1111"),
       ("asset_tag", JVal.str "Q2XX-1111"), ("model_id", JVal.num 5),
       ("status_id", JVal.num 2)] 3 net0).1 =
      Except.ok (some (retSuccess Body.empty)) ∧
    (post_hardware_to_snipe_it
      (oracleOf [HttpOutcome.resp ⟨200, none,
          Body.hw [⟨42, some (JVal.str "Q2XX-1111"), some (JVal.str "Q2XX-1111")⟩], ""⟩,
        HttpOutcome.resp ⟨200, none, Body.empty, ""⟩])
      [("name", JVal.str "AP1"), ("serial", JVal.str "Q2XX-1111"),
       ("asset_tag", JVal.str "Q2XX-1111"), ("model_id", JVal.num 5),
       ("status_id", JVal.num 2)] 3 net0).2.1.evs =
      [Event.req (Req.searchHardware (JVal.str "Q2XX-1111")),
       Event.req (Req.updateHardware 42
         [("name", JVal.str "AP1"), ("asset_tag", JVal.str "Q2XX-1111"),
          ("model_id", JVal.num 5)])] ∧
    pyGet (retSuccess (Body.created 42)) "action" = none ∧
    pyGet (retSuccess Body.empty) "action" = none ∧
    classifyAction (retSuccess (Body.created 42)) = "unknown" ∧
    classifyAction (retSuccess Body.empty) = "unknown" ∧
    (applyOutcome stats0 (Except.ok (some (retSuccess (Body.created 42))))).successful = 1 ∧
    (applyOutcome stats0 (Except.ok (some (retSuccess (Body.created 42))))).created = 0 ∧
    (applyOutcome stats0 (Except.ok (some (retSuccess Body.empty)))).updated = 0 := by
  decide
